import Mathlib

/-!
Shallow embedding of `internal/provider/connection_ephemeral_resource.go` from
terraform-provider-ssh-tunnel.

The file under verification implements the Open/Close orchestration of SSH
tunnels: `Open` generates a random identifier, registers a `TunnelInfo` record
in the process-wide `TunnelTracker`, establishes an SSH connection, constructs
one port-forwarding listener per configured forwarding, and reports the bound
local ports; `closeByConnectionID` tears a tunnel down (close listeners, close
connection, remove from tracker) and `Close` delegates to it.

External collaborators (`ssh.ParsePrivateKey`, `ssh.Dial`, `time.ParseDuration`,
`portforward.New`, `net.Listener.Addr`, the `Close` methods of listeners and
connections) are modelled as an environment `Env` of abstract functions: the
embedding is parametric in their outcomes, which is exactly the information the
Go code consumes from them.
-/

set_option maxHeartbeats 1000000

/-- Opaque handle standing for a `net.Listener` created by `portforward.New`. -/
abbrev Listener := Nat

/-- Opaque handle standing for an `*ssh.Client` returned by `ssh.Dial`. -/
abbrev Conn := Nat

/-- Opaque handle standing for an `ssh.Signer` returned by `ssh.ParsePrivateKey`. -/
abbrev Signer := Nat

/-- Model of `*net.TCPAddr` as consumed by `Open` (only the `Port` field is read). -/
structure TCPAddr where
  port : Int
  deriving DecidableEq, Repr

/-- Model of `TunnelInfo` (the registry record): the SSH connection handle
(`conn`, nil modelled as `none`) and the forwarding listeners. -/
structure TunnelInfo where
  conn : Option Conn
  listeners : List Listener
  deriving DecidableEq, Repr

/-- Modelled from the spec: the implementation of `TunnelTracker` is not part of
the provided source (only its call sites `Add`, `Get`, `Remove` are). Per spec
section 4.1 it is a map from identifier to record: `Add` inserts with last write
wins, `Get` returns the record or a not-found signal, `Remove` deletes if
present and is a no-op otherwise. It is modelled as an association list with
unique keys. -/
abbrev Tracker := List (String × TunnelInfo)

/-- The empty registry. -/
def Tracker.empty : Tracker := []

/-- Modelled from the spec: `TunnelTracker.Remove` deletes the entry if present;
removing a missing identifier is a no-op. -/
def Tracker.remove (t : Tracker) (id : String) : Tracker :=
  t.filter (fun e => !(e.1 == id))

/-- Modelled from the spec: `TunnelTracker.Add` inserts unconditionally, last
write wins on key collision. -/
def Tracker.add (t : Tracker) (id : String) (info : TunnelInfo) : Tracker :=
  (id, info) :: Tracker.remove t id

/-- Modelled from the spec: `TunnelTracker.Get` returns the record or not-found
(`none`). -/
def Tracker.get (t : Tracker) (id : String) : Option TunnelInfo :=
  (t.find? (fun e => e.1 == id)).map (fun e => e.2)

/-- Model of `portforward.Config` as built by `Open` (lines 215-231): zero
values of `RetryDelay`/`RetryAttempts` are `0`, overridden when the
corresponding config attribute is non-null. -/
structure PfConfig where
  localPort : Option Int
  remoteAddr : String
  retryDelay : Int
  retryAttempts : Int
  deriving DecidableEq, Repr

/-- One element of `local_port_forwardings`
(`ConnectionEphemeralResourceModelLocalPortForwarding`); nullable attributes are
modelled as `Option`. -/
structure Forwarding where
  localPort : Option Int
  remoteHost : String
  remotePort : Int
  retryAttempts : Option Int
  retryDelay : Option String
  deriving DecidableEq, Repr

/-- `ConnectionEphemeralResourceModel` with the framework wrappers unwrapped. -/
structure ConnectionModel where
  host : String
  port : Int
  user : String
  privateKey : String
  forwardings : List Forwarding
  deriving DecidableEq, Repr

/-- Model of `ssh.ClientConfig` as built at line 198 (user plus the signer used
as the single auth method; the host-key callback carries no data). -/
structure ClientConfig where
  user : String
  signer : Signer
  deriving DecidableEq, Repr

/-- One diagnostic added via `resp.Diagnostics.AddError`, identified by its
summary and, for close errors, the handle whose `Close` failed (the Go message
embeds the error value). -/
inductive Diag where
  | privateDataError
  | privateKeyError
  | connectionError
  | localPortForwardingRetryDelayError
  | portForwardingCreateError
  | portForwardingAddrError
  | listenerCloseError (l : Listener)
  | connCloseError
  deriving DecidableEq, Repr

/-- Outcomes of the external collaborators consumed by `Open` and
`closeByConnectionID`: key parsing, dialing, duration parsing, listener
construction, address inspection, and the error behaviour of the `Close`
methods. `none` models a non-nil Go error (or, for `listenerTCPAddr`, a
non-TCP address). -/
structure Env where
  parsePrivateKey : String → Option Signer
  dial : String → String → ClientConfig → Option Conn
  parseDuration : String → Option Int
  pfNew : Conn → PfConfig → Option Listener
  listenerTCPAddr : Listener → Option TCPAddr
  listenerCloseErr : Listener → Bool
  connCloseErr : Conn → Bool
  marshalOk : Bool

/-- Go `hostAddr` (lines 283-285): `fmt.Sprintf("%s:%d", host.ValueString(),
port.ValueInt32())`. -/
def hostAddr (host : String) (port : Int) : String :=
  host ++ ":" ++ toString port

/-- The rune slice `letters` (line 303). -/
def lettersStr : String := "abcdefghijklmnopqrstuvwxyzABCDEFGHIJKLMNOPQRSTUVWXYZ"

/-- The rune slice `letters` as a list of characters. -/
def letters : List Char := lettersStr.toList

/-- Go `randSeq` (lines 305-311): `n` characters, each `letters[rand.Intn(len(letters))]`.
The random source is modelled as a function from the call index to a natural
number; `rand.Intn(len(letters))` always yields a value below `len(letters)`,
modelled by reducing modulo `letters.length`. -/
def randSeq (rand : Nat → Nat) (n : Nat) : String :=
  String.mk ((List.range n).map (fun i => letters.getD (rand i % letters.length) 'a'))

/-- Go `int32(...)` conversion applied to `tcpAddr.Port` at line 252:
wrap-around into the int32 range. -/
def toInt32 (n : Int) : Int :=
  (n + 2 ^ 31) % 2 ^ 32 - 2 ^ 31

/-- The result of `closeByConnectionID`: the collected diagnostics and the
tracker state after the call. -/
structure CloseResult where
  diags : List Diag
  tracker : Tracker
  deriving DecidableEq, Repr

/-- The listener-close diagnostics collected by the loop at lines 266-270, in
record order. -/
def listenerCloseDiags (env : Env) (ls : List Listener) : List Diag :=
  ls.filterMap (fun l =>
    if env.listenerCloseErr l then some (Diag.listenerCloseError l) else none)

/-- The connection-close diagnostic of lines 272-276 (empty when `conn` is nil
or its `Close` succeeds). -/
def connCloseDiag (env : Env) (c : Option Conn) : List Diag :=
  match c with
  | none => []
  | some c => if env.connCloseErr c then [Diag.connCloseError] else []

/-- Go `closeByConnectionID` (lines 258-281): look the record up (absent means
return with no diagnostics), close every listener collecting errors, close the
connection if non-nil collecting the error, then remove the entry. -/
def closeByConnectionID (env : Env) (tr : Tracker) (id : String) : CloseResult :=
  match Tracker.get tr id with
  | none => { diags := [], tracker := tr }
  | some info =>
      { diags := listenerCloseDiags env info.listeners ++ connCloseDiag env info.conn
        tracker := Tracker.remove tr id }

/-- The `portforward.Config` construction of lines 215-231 for one forwarding:
start from `{LocalPort, RemoteAddr}`, then parse and set the retry delay when
configured (`none` models the `time.ParseDuration` error return at line 224),
then set the retry attempts when configured. -/
def parseConf (env : Env) (f : Forwarding) : Option PfConfig :=
  let conf0 : PfConfig :=
    { localPort := f.localPort
      remoteAddr := hostAddr f.remoteHost f.remotePort
      retryDelay := 0
      retryAttempts := 0 }
  match f.retryDelay with
  | none =>
      match f.retryAttempts with
      | none => some conf0
      | some ra => some { conf0 with retryAttempts := ra }
  | some s =>
      match env.parseDuration s with
      | none => none
      | some d =>
          match f.retryAttempts with
          | none => some { conf0 with retryDelay := d }
          | some ra => some { conf0 with retryDelay := d, retryAttempts := ra }

/-- The observable outcome of an `Open` call: whether diagnostics carry an
error, the diagnostics, the tracker state, the result model written by
`resp.Result.Set` (`none` when `Open` returned early), the generated
identifier, the address passed to `ssh.Dial` (when it was called), and the
configs passed to `portforward.New` in call order. -/
structure OpenResult where
  errored : Bool
  diags : List Diag
  tracker : Tracker
  result : Option ConnectionModel
  id : String
  dialAddr : Option String
  pfConfs : List PfConfig

/-- The forwarding loop of `Open` (lines 214-253). Arguments thread the mutable
state: the tracker (updated through the record pointer registered under `id`),
the current record `info`, the forwardings already processed (with their
`LocalPort` rewritten to the bound port, line 252), and the configs passed to
`portforward.New` so far. On a retry-delay parse error `Open` returns without
teardown (line 224); on a `portforward.New` error (line 236) or a non-TCP
listener address (line 244) it appends the diagnostics of
`closeByConnectionID` and returns. -/
def openLoop (env : Env) (id : String) (conn : Conn) (data : ConnectionModel) :
    Tracker → TunnelInfo → List Forwarding → List PfConfig → Option String →
    List Forwarding → OpenResult
  | tr, _info, done, confs, dAddr, [] =>
      { errored := false, diags := [], tracker := tr
        result := some { data with forwardings := done }
        id := id, dialAddr := dAddr, pfConfs := confs }
  | tr, info, done, confs, dAddr, f :: rest =>
      match parseConf env f with
      | none =>
          { errored := true, diags := [Diag.localPortForwardingRetryDelayError]
            tracker := tr, result := none, id := id, dialAddr := dAddr
            pfConfs := confs }
      | some conf =>
          match env.pfNew conn conf with
          | none =>
              let c := closeByConnectionID env tr id
              { errored := true
                diags := Diag.portForwardingCreateError :: c.diags
                tracker := c.tracker, result := none, id := id
                dialAddr := dAddr, pfConfs := confs ++ [conf] }
          | some listener =>
              let info2 : TunnelInfo :=
                { conn := info.conn, listeners := info.listeners ++ [listener] }
              let tr2 := Tracker.add tr id info2
              match env.listenerTCPAddr listener with
              | none =>
                  let c := closeByConnectionID env tr2 id
                  { errored := true
                    diags := Diag.portForwardingAddrError :: c.diags
                    tracker := c.tracker, result := none, id := id
                    dialAddr := dAddr, pfConfs := confs ++ [conf] }
              | some a =>
                  openLoop env id conn data tr2 info2
                    (done ++ [{ f with localPort := some (toInt32 a.port) }])
                    (confs ++ [conf]) dAddr rest

/-- Go `Open` (lines 170-256): generate the identifier, marshal the private
data (returning before registration on error), register the fresh record,
parse the private key (returning without teardown on error, line 195), dial
(returning without teardown on error, line 207), store the connection into the
registered record through the pointer (line 210), then run the forwarding
loop. -/
def openTunnel (env : Env) (tr : Tracker) (rand : Nat → Nat)
    (data : ConnectionModel) : OpenResult :=
  let id := randSeq rand 8
  let tunnelInfo : TunnelInfo := { conn := none, listeners := [] }
  match env.marshalOk with
  | true =>
    let tr1 := Tracker.add tr id tunnelInfo
    match env.parsePrivateKey data.privateKey with
    | none =>
        { errored := true, diags := [Diag.privateKeyError], tracker := tr1
          result := none, id := id, dialAddr := none, pfConfs := [] }
    | some signer =>
        let addr := hostAddr data.host data.port
        match env.dial "tcp" addr { user := data.user, signer := signer } with
        | none =>
            { errored := true, diags := [Diag.connectionError], tracker := tr1
              result := none, id := id, dialAddr := some addr, pfConfs := [] }
        | some conn =>
            let tunnelInfo2 : TunnelInfo := { conn := some conn, listeners := [] }
            let tr2 := Tracker.add tr1 id tunnelInfo2
            openLoop env id conn data tr2 tunnelInfo2 [] [] (some addr)
              data.forwardings
  | false =>
    { errored := true, diags := [Diag.privateDataError], tracker := tr
      result := none, id := id, dialAddr := none, pfConfs := [] }

/-- The record-level part of the spec invariant of section 3: a record with a
non-empty listener set has a non-nil transport, stated for every entry of a
tracker. -/
def TrackerOK (tr : Tracker) : Prop :=
  ∀ e ∈ tr, e.2.listeners ≠ [] → e.2.conn.isSome = true

/-- Tracker states reachable from the empty registry through the operations of
the file: `Open` invocations and teardowns. -/
inductive Reach : Tracker → Prop where
  | empty : Reach Tracker.empty
  | openT (env : Env) (tr : Tracker) (rand : Nat → Nat) (data : ConnectionModel) :
      Reach tr → Reach (openTunnel env tr rand data).tracker
  | closeT (env : Env) (tr : Tracker) (id : String) :
      Reach tr → Reach (closeByConnectionID env tr id).tracker

/-- Concrete random source for witnesses: always index 0 (so the identifier is
the 8 copies of the first letter). -/
def rand0 : Nat → Nat := fun _ => 0

/-- Concrete environment in which private-key parsing fails. -/
def envBadKey : Env :=
  { parsePrivateKey := fun _ => none
    dial := fun _ _ _ => none
    parseDuration := fun _ => none
    pfNew := fun _ _ => none
    listenerTCPAddr := fun _ => none
    listenerCloseErr := fun _ => false
    connCloseErr := fun _ => false
    marshalOk := true }

/-- Concrete configuration with no forwardings. -/
def data0 : ConnectionModel :=
  { host := "h", port := 22, user := "u", privateKey := "k", forwardings := [] }

/-- Concrete environment in which every external step succeeds: the key
parses, dialing yields connection `0`, `portforward.New` yields listener `5`
bound (as a TCP address) to port `5432`, and no `Close` fails. -/
def envGood : Env :=
  { parsePrivateKey := fun _ => some 0
    dial := fun _ _ _ => some 0
    parseDuration := fun _ => some 100
    pfNew := fun _ _ => some 5
    listenerTCPAddr := fun _ => some { port := 5432 }
    listenerCloseErr := fun _ => false
    connCloseErr := fun _ => false
    marshalOk := true }

/-- Concrete configuration with one forwarding carrying retry options. -/
def dataG : ConnectionModel :=
  { host := "h", port := 22, user := "u", privateKey := "k"
    forwardings := [{ localPort := none, remoteHost := "db.internal"
                      remotePort := 5432, retryAttempts := some 2
                      retryDelay := some "100ms" }] }

/-- Concrete environment in which listener construction fails. -/
def envPfFail : Env :=
  { envGood with pfNew := fun _ _ => none }

/-- The record registered by a successful `openTunnel envGood` run. -/
def infoG : TunnelInfo := { conn := some 0, listeners := [5] }

/-- The result model written by a successful `openTunnel envGood` run on
`dataG` (forwarding rewritten to the bound port). -/
def outG : ConnectionModel :=
  { host := "h", port := 22, user := "u", privateKey := "k"
    forwardings := [{ localPort := some 5432, remoteHost := "db.internal"
                      remotePort := 5432, retryAttempts := some 2
                      retryDelay := some "100ms" }] }

/-- Concrete environment in which closing listener `1` and closing the
connection fail. -/
def envCloseErr : Env :=
  { envGood with
    listenerCloseErr := fun l => l == 1
    connCloseErr := fun _ => true }

/-- A concrete registered record with two listeners. -/
def infoW : TunnelInfo := { conn := some 0, listeners := [1, 2] }

/-- A concrete tracker holding `infoW` under identifier `x`. -/
def trW : Tracker := [("x", infoW)]

/-- A concrete registered record whose transport is nil. -/
def infoN : TunnelInfo := { conn := none, listeners := [3] }

/-- A concrete tracker holding the nil-transport record under identifier `y`. -/
def trN : Tracker := [("y", infoN)]

theorem Tracker.get_add (t : Tracker) (id : String) (info : TunnelInfo) :
    Tracker.get (Tracker.add t id info) id = some info := by
  simp [Tracker.get, Tracker.add, List.find?]

theorem Tracker.get_remove (t : Tracker) (id : String) :
    Tracker.get (Tracker.remove t id) id = none := by
  induction t with
  | nil => rfl
  | cons a t ih =>
    by_cases h : (a.1 == id) = true
    · simp only [Tracker.remove, List.filter_cons, h] at *
      simp only [Bool.not_true, Bool.false_eq_true, if_false]
      exact ih
    · simp only [Bool.not_eq_true] at h
      simp only [Tracker.remove, List.filter_cons, h, Bool.not_false, if_true]
      simp only [Tracker.get, List.find?_cons, h]
      simp only [Tracker.remove] at ih
      exact ih

theorem closeByConnectionID_get_none (env : Env) (tr : Tracker) (id : String) :
    Tracker.get (closeByConnectionID env tr id).tracker id = none := by
  unfold closeByConnectionID
  rcases hg : Tracker.get tr id with _ | info
  · simpa using hg
  · simpa using Tracker.get_remove tr id

theorem Tracker.mem_of_get (t : Tracker) (id : String) (info : TunnelInfo)
    (h : Tracker.get t id = some info) : (id, info) ∈ t := by
  unfold Tracker.get at h
  obtain ⟨e, he, h2⟩ := Option.map_eq_some'.mp h
  have hm := List.mem_of_find?_eq_some he
  have hp := List.find?_some he
  obtain ⟨e1, e2⟩ := e
  simp only at h2 hp
  have h1 : e1 = id := by simpa using hp
  subst h1; subst h2
  exact hm

theorem mem_listenerCloseDiags (env : Env) (ls : List Listener) (d : Diag)
    (h : d ∈ listenerCloseDiags env ls) : ∃ l, d = Diag.listenerCloseError l := by
  unfold listenerCloseDiags at h
  obtain ⟨l, _, hl⟩ := List.mem_filterMap.mp h
  by_cases hc : env.listenerCloseErr l = true
  · simp only [hc, if_true, Option.some.injEq] at hl
    exact ⟨l, hl.symm⟩
  · simp [hc] at hl

theorem mem_closeDiags (env : Env) (tr : Tracker) (id : String) (d : Diag)
    (h : d ∈ (closeByConnectionID env tr id).diags) :
    (∃ l, d = Diag.listenerCloseError l) ∨ d = Diag.connCloseError := by
  unfold closeByConnectionID at h
  rcases hg : Tracker.get tr id with _ | info
  · rw [hg] at h; simp at h
  · rw [hg] at h
    simp only at h
    rcases List.mem_append.mp h with h1 | h2
    · exact Or.inl (mem_listenerCloseDiags env _ d h1)
    · unfold connCloseDiag at h2
      rcases hc : info.conn with _ | c
      · rw [hc] at h2; simp at h2
      · rw [hc] at h2
        by_cases hcc : env.connCloseErr c = true
        · simp only [hcc, if_true, List.mem_singleton] at h2
          exact Or.inr h2
        · simp [hcc] at h2

theorem openLoop_id (env : Env) (id : String) (conn : Conn) (data : ConnectionModel) :
    ∀ (rest : List Forwarding) (tr : Tracker) (info : TunnelInfo)
      (done : List Forwarding) (confs : List PfConfig) (dAddr : Option String),
      (openLoop env id conn data tr info done confs dAddr rest).id = id := by
  intro rest
  induction rest with
  | nil => intro tr info done confs dAddr; rfl
  | cons f rest ih =>
    intro tr info done confs dAddr
    simp only [openLoop]
    split
    · rfl
    · split
      · rfl
      · split
        · rfl
        · exact ih _ _ _ _ _

theorem openLoop_dialAddr (env : Env) (id : String) (conn : Conn)
    (data : ConnectionModel) :
    ∀ (rest : List Forwarding) (tr : Tracker) (info : TunnelInfo)
      (done : List Forwarding) (confs : List PfConfig) (dAddr : Option String),
      (openLoop env id conn data tr info done confs dAddr rest).dialAddr = dAddr := by
  intro rest
  induction rest with
  | nil => intro tr info done confs dAddr; rfl
  | cons f rest ih =>
    intro tr info done confs dAddr
    simp only [openLoop]
    split
    · rfl
    · split
      · rfl
      · split
        · rfl
        · exact ih _ _ _ _ _

theorem openLoop_success (env : Env) (id : String) (conn : Conn)
    (data : ConnectionModel) :
    ∀ (rest : List Forwarding) (tr : Tracker) (info : TunnelInfo)
      (done : List Forwarding) (confs : List PfConfig) (dAddr : Option String),
      Tracker.get tr id = some info →
      (openLoop env id conn data tr info done confs dAddr rest).errored = false →
      ∃ (ls : List Listener) (ds : List Forwarding),
        Tracker.get (openLoop env id conn data tr info done confs dAddr rest).tracker id =
          some { conn := info.conn, listeners := info.listeners ++ ls } ∧
        (openLoop env id conn data tr info done confs dAddr rest).result =
          some { data with forwardings := done ++ ds } ∧
        ls.length = rest.length ∧ ds.length = rest.length ∧
        (∀ (i : Nat) (f0 : Forwarding), rest[i]? = some f0 →
          ∃ l a, ls[i]? = some l ∧ env.listenerTCPAddr l = some a ∧
            ds[i]? = some { f0 with localPort := some (toInt32 a.port) }) := by
  intro rest
  induction rest with
  | nil =>
    intro tr info done confs dAddr hget _h
    refine ⟨[], [], ?_, by simp [openLoop], rfl, rfl, ?_⟩
    · simpa [openLoop] using hget
    · intro i f0 h
      simp at h
  | cons f rest ih =>
    intro tr info done confs dAddr hget hok
    rcases hpc : parseConf env f with _ | conf
    · simp [openLoop, hpc] at hok
    · rcases hn : env.pfNew conn conf with _ | l
      · simp [openLoop, hpc, hn] at hok
      · rcases ha : env.listenerTCPAddr l with _ | a
        · simp [openLoop, hpc, hn, ha] at hok
        · simp only [openLoop, hpc, hn, ha] at hok ⊢
          obtain ⟨ls, ds, h1, h2, h3, h4, h5⟩ :=
            ih (Tracker.add tr id { conn := info.conn, listeners := info.listeners ++ [l] })
              { conn := info.conn, listeners := info.listeners ++ [l] }
              (done ++ [{ f with localPort := some (toInt32 a.port) }])
              (confs ++ [conf]) dAddr (Tracker.get_add _ _ _) hok
          refine ⟨l :: ls, { f with localPort := some (toInt32 a.port) } :: ds,
            ?_, ?_, ?_, ?_, ?_⟩
          · simpa [List.append_assoc] using h1
          · simpa [List.append_assoc] using h2
          · simpa using h3
          · simpa using h4
          · intro i f0 hif
            cases i with
            | zero =>
              simp only [List.getElem?_cons_zero, Option.some.injEq] at hif
              subst hif
              exact ⟨l, a, by simp, ha, by simp⟩
            | succ i =>
              simp only [List.getElem?_cons_succ] at hif ⊢
              exact h5 i f0 hif

theorem openLoop_pfdiag (env : Env) (id : String) (conn : Conn)
    (data : ConnectionModel) :
    ∀ (rest : List Forwarding) (tr : Tracker) (info : TunnelInfo)
      (done : List Forwarding) (confs : List PfConfig) (dAddr : Option String),
      (Diag.portForwardingCreateError ∈
          (openLoop env id conn data tr info done confs dAddr rest).diags ∨
        Diag.portForwardingAddrError ∈
          (openLoop env id conn data tr info done confs dAddr rest).diags) →
      (openLoop env id conn data tr info done confs dAddr rest).errored = true ∧
      Tracker.get (openLoop env id conn data tr info done confs dAddr rest).tracker id =
        none := by
  intro rest
  induction rest with
  | nil =>
    intro tr info done confs dAddr h
    simp [openLoop] at h
  | cons f rest ih =>
    intro tr info done confs dAddr h
    rcases hpc : parseConf env f with _ | conf
    · simp [openLoop, hpc] at h
    · rcases hn : env.pfNew conn conf with _ | l
      · simp only [openLoop, hpc, hn]
        exact ⟨by simp, closeByConnectionID_get_none env tr id⟩
      · rcases ha : env.listenerTCPAddr l with _ | a
        · simp only [openLoop, hpc, hn, ha]
          exact ⟨by simp, closeByConnectionID_get_none env _ id⟩
        · simp only [openLoop, hpc, hn, ha] at h ⊢
          exact ih _ _ _ _ _ h

theorem openLoop_retrydiag (env : Env) (id : String) (conn : Conn)
    (data : ConnectionModel) :
    ∀ (rest : List Forwarding) (tr : Tracker) (info : TunnelInfo)
      (done : List Forwarding) (confs : List PfConfig) (dAddr : Option String),
      (Tracker.get tr id).isSome = true →
      Diag.localPortForwardingRetryDelayError ∈
        (openLoop env id conn data tr info done confs dAddr rest).diags →
      (openLoop env id conn data tr info done confs dAddr rest).errored = true ∧
      (Tracker.get (openLoop env id conn data tr info done confs dAddr rest).tracker
        id).isSome = true := by
  intro rest
  induction rest with
  | nil =>
    intro tr info done confs dAddr _hs h
    simp [openLoop] at h
  | cons f rest ih =>
    intro tr info done confs dAddr hs h
    rcases hpc : parseConf env f with _ | conf
    · simp only [openLoop, hpc]
      exact ⟨by simp, hs⟩
    · rcases hn : env.pfNew conn conf with _ | l
      · simp only [openLoop, hpc, hn, List.mem_cons] at h
        rcases h with h | h
        · simp at h
        · rcases mem_closeDiags env tr id _ h with ⟨l, hl⟩ | hl <;> simp at hl
      · rcases ha : env.listenerTCPAddr l with _ | a
        · simp only [openLoop, hpc, hn, ha, List.mem_cons] at h
          rcases h with h | h
          · simp at h
          · rcases mem_closeDiags env _ id _ h with ⟨l2, hl⟩ | hl <;> simp at hl
        · simp only [openLoop, hpc, hn, ha] at h ⊢
          refine ih _ _ _ _ _ ?_ h
          rw [Tracker.get_add]
          rfl

theorem openLoop_diagShape (env : Env) (id : String) (conn : Conn)
    (data : ConnectionModel) :
    ∀ (rest : List Forwarding) (tr : Tracker) (info : TunnelInfo)
      (done : List Forwarding) (confs : List PfConfig) (dAddr : Option String)
      (d : Diag),
      d ∈ (openLoop env id conn data tr info done confs dAddr rest).diags →
      d = Diag.localPortForwardingRetryDelayError ∨
      d = Diag.portForwardingCreateError ∨
      d = Diag.portForwardingAddrError ∨
      (∃ l, d = Diag.listenerCloseError l) ∨
      d = Diag.connCloseError := by
  intro rest
  induction rest with
  | nil =>
    intro tr info done confs dAddr d h
    simp [openLoop] at h
  | cons f rest ih =>
    intro tr info done confs dAddr d h
    rcases hpc : parseConf env f with _ | conf
    · simp only [openLoop, hpc, List.mem_singleton] at h
      exact Or.inl h
    · rcases hn : env.pfNew conn conf with _ | l
      · simp only [openLoop, hpc, hn, List.mem_cons] at h
        rcases h with h | h
        · exact Or.inr (Or.inl h)
        · rcases mem_closeDiags env tr id _ h with hl | hl
          · exact Or.inr (Or.inr (Or.inr (Or.inl hl)))
          · exact Or.inr (Or.inr (Or.inr (Or.inr hl)))
      · rcases ha : env.listenerTCPAddr l with _ | a
        · simp only [openLoop, hpc, hn, ha, List.mem_cons] at h
          rcases h with h | h
          · exact Or.inr (Or.inr (Or.inl h))
          · rcases mem_closeDiags env _ id _ h with hl | hl
            · exact Or.inr (Or.inr (Or.inr (Or.inl hl)))
            · exact Or.inr (Or.inr (Or.inr (Or.inr hl)))
        · simp only [openLoop, hpc, hn, ha] at h
          exact ih _ _ _ _ _ _ h

theorem trackerOK_remove (tr : Tracker) (id : String) (h : TrackerOK tr) :
    TrackerOK (Tracker.remove tr id) := by
  intro e he
  exact h e (List.mem_of_mem_filter he)

theorem trackerOK_add (tr : Tracker) (id : String) (info : TunnelInfo)
    (h : TrackerOK tr) (hi : info.listeners ≠ [] → info.conn.isSome = true) :
    TrackerOK (Tracker.add tr id info) := by
  intro e he
  rcases List.mem_cons.mp he with h1 | h2
  · subst h1
    exact hi
  · exact trackerOK_remove tr id h e h2

theorem trackerOK_close (env : Env) (tr : Tracker) (id : String) (h : TrackerOK tr) :
    TrackerOK (closeByConnectionID env tr id).tracker := by
  unfold closeByConnectionID
  rcases hg : Tracker.get tr id with _ | info
  · simpa using h
  · simpa using trackerOK_remove tr id h

theorem openLoop_trackerOK (env : Env) (id : String) (conn : Conn)
    (data : ConnectionModel) :
    ∀ (rest : List Forwarding) (tr : Tracker) (info : TunnelInfo)
      (done : List Forwarding) (confs : List PfConfig) (dAddr : Option String),
      TrackerOK tr → info.conn.isSome = true →
      TrackerOK (openLoop env id conn data tr info done confs dAddr rest).tracker := by
  intro rest
  induction rest with
  | nil =>
    intro tr info done confs dAddr htr _hc
    simpa [openLoop] using htr
  | cons f rest ih =>
    intro tr info done confs dAddr htr hc
    rcases hpc : parseConf env f with _ | conf
    · simpa [openLoop, hpc] using htr
    · rcases hn : env.pfNew conn conf with _ | l
      · simp only [openLoop, hpc, hn]
        exact trackerOK_close env tr id htr
      · rcases ha : env.listenerTCPAddr l with _ | a
        · simp only [openLoop, hpc, hn, ha]
          exact trackerOK_close env _ id (trackerOK_add tr id _ htr (fun _ => hc))
        · simp only [openLoop, hpc, hn, ha]
          exact ih _ _ _ _ _ (trackerOK_add tr id _ htr (fun _ => hc)) hc

theorem parseConf_remoteAddr (env : Env) (f : Forwarding) (c : PfConfig)
    (h : parseConf env f = some c) :
    c.remoteAddr = hostAddr f.remoteHost f.remotePort := by
  rcases hd : f.retryDelay with _ | s
  · rcases ha : f.retryAttempts with _ | ra <;>
      simp only [parseConf, hd, ha, Option.some.injEq] at h <;> subst h <;> rfl
  · rcases hp : env.parseDuration s with _ | d
    · simp only [parseConf, hd, hp] at h
      exact Option.noConfusion h
    · rcases ha : f.retryAttempts with _ | ra <;>
        simp only [parseConf, hd, hp, ha, Option.some.injEq] at h <;> subst h <;> rfl

theorem openLoop_confs (env : Env) (id : String) (conn : Conn)
    (data : ConnectionModel) :
    ∀ (rest : List Forwarding) (tr : Tracker) (info : TunnelInfo)
      (done : List Forwarding) (confs : List PfConfig) (dAddr : Option String),
      ∃ cs, (openLoop env id conn data tr info done confs dAddr rest).pfConfs =
          confs ++ cs ∧
        ∀ (i : Nat) (c : PfConfig), cs[i]? = some c →
          ∃ f0, rest[i]? = some f0 ∧
            c.remoteAddr = hostAddr f0.remoteHost f0.remotePort := by
  intro rest
  induction rest with
  | nil =>
    intro tr info done confs dAddr
    refine ⟨[], by simp [openLoop], ?_⟩
    intro i c h
    simp at h
  | cons f rest ih =>
    intro tr info done confs dAddr
    rcases hpc : parseConf env f with _ | conf
    · refine ⟨[], by simp [openLoop, hpc], ?_⟩
      intro i c h
      simp at h
    · rcases hn : env.pfNew conn conf with _ | l
      · refine ⟨[conf], by simp [openLoop, hpc, hn], ?_⟩
        intro i c h
        cases i with
        | zero =>
          simp only [List.getElem?_cons_zero, Option.some.injEq] at h
          subst h
          exact ⟨f, by simp, parseConf_remoteAddr env f conf hpc⟩
        | succ i =>
          simp at h
      · rcases ha : env.listenerTCPAddr l with _ | a
        · refine ⟨[conf], by simp [openLoop, hpc, hn, ha], ?_⟩
          intro i c h
          cases i with
          | zero =>
            simp only [List.getElem?_cons_zero, Option.some.injEq] at h
            subst h
            exact ⟨f, by simp, parseConf_remoteAddr env f conf hpc⟩
          | succ i =>
            simp at h
        · obtain ⟨cs, hc1, hc2⟩ :=
            ih (Tracker.add tr id { conn := info.conn, listeners := info.listeners ++ [l] })
              { conn := info.conn, listeners := info.listeners ++ [l] }
              (done ++ [{ f with localPort := some (toInt32 a.port) }])
              (confs ++ [conf]) dAddr
          refine ⟨conf :: cs, ?_, ?_⟩
          · simp only [openLoop, hpc, hn, ha]
            rw [hc1]
            simp [List.append_assoc]
          · intro i c h
            cases i with
            | zero =>
              simp only [List.getElem?_cons_zero, Option.some.injEq] at h
              subst h
              exact ⟨f, by simp, parseConf_remoteAddr env f conf hpc⟩
            | succ i =>
              simp only [List.getElem?_cons_succ] at h ⊢
              exact hc2 i c h

theorem openTunnel_id (env : Env) (tr : Tracker) (rand : Nat → Nat)
    (data : ConnectionModel) :
    (openTunnel env tr rand data).id = randSeq rand 8 := by
  simp only [openTunnel]
  split
  · split
    · rfl
    · split
      · rfl
      · rw [openLoop_id]
  · rfl

theorem openTunnel_trackerOK (env : Env) (tr : Tracker) (rand : Nat → Nat)
    (data : ConnectionModel) (h : TrackerOK tr) :
    TrackerOK (openTunnel env tr rand data).tracker := by
  simp only [openTunnel]
  split
  · split
    · exact trackerOK_add tr _ _ h (by intro hne; simp at hne)
    · split
      · exact trackerOK_add tr _ _ h (by intro hne; simp at hne)
      · refine openLoop_trackerOK env _ _ data _ _ _ _ _ _ ?_ rfl
        exact trackerOK_add _ _ _ (trackerOK_add tr _ _ h (by intro hne; simp at hne))
          (fun _ => rfl)
  · exact h

theorem reach_trackerOK (tr : Tracker) (h : Reach tr) : TrackerOK tr := by
  induction h with
  | empty => intro e he; simp [Tracker.empty] at he
  | openT env tr rand data _ ih => exact openTunnel_trackerOK env tr rand data ih
  | closeT env tr id _ ih => exact trackerOK_close env tr id ih

theorem toInt32_eq_self (n : Int) (h0 : 0 ≤ n) (h1 : n < 65536) : toInt32 n = n := by
  unfold toInt32
  have h2 : (n + 2 ^ 31) % 2 ^ 32 = n + 2 ^ 31 :=
    Int.emod_eq_of_lt (by omega) (by omega)
  omega

theorem openLoop_no_setup_diags (env : Env) (id : String) (conn : Conn)
    (data : ConnectionModel) (rest : List Forwarding) (tr : Tracker)
    (info : TunnelInfo) (done : List Forwarding) (confs : List PfConfig)
    (dAddr : Option String) :
    Diag.privateKeyError ∉ (openLoop env id conn data tr info done confs dAddr rest).diags ∧
    Diag.connectionError ∉ (openLoop env id conn data tr info done confs dAddr rest).diags := by
  constructor <;> intro h <;>
    rcases openLoop_diagShape env id conn data rest tr info done confs dAddr _ h with
      h1 | h1 | h1 | ⟨l, h1⟩ | h1 <;> exact Diag.noConfusion h1

/-- Claim C2: for every identifier present in the registry, teardown first
closes every listener in the record (collecting each close error, in record
order), then closes the transport (collecting its error after the listener
errors), and always removes the record from the registry, even when some
close returned an error; no close error short-circuits the collection. -/
theorem c2_teardown_order (env : Env) (tr : Tracker) (id : String)
    (info : TunnelInfo) (h : Tracker.get tr id = some info) :
    (closeByConnectionID env tr id).tracker = Tracker.remove tr id ∧
    Tracker.get (closeByConnectionID env tr id).tracker id = none ∧
    (closeByConnectionID env tr id).diags =
      listenerCloseDiags env info.listeners ++ connCloseDiag env info.conn ∧
    (∀ l, l ∈ info.listeners → env.listenerCloseErr l = true →
      Diag.listenerCloseError l ∈ (closeByConnectionID env tr id).diags) ∧
    (∀ c, info.conn = some c → env.connCloseErr c = true →
      Diag.connCloseError ∈ (closeByConnectionID env tr id).diags) := by
  have hd : closeByConnectionID env tr id =
      { diags := listenerCloseDiags env info.listeners ++ connCloseDiag env info.conn
        tracker := Tracker.remove tr id } := by
    unfold closeByConnectionID
    rw [h]
  refine ⟨by rw [hd], closeByConnectionID_get_none env tr id, by rw [hd], ?_, ?_⟩
  · intro l hl hcl
    rw [hd]
    simp only [List.mem_append]
    left
    unfold listenerCloseDiags
    exact List.mem_filterMap.mpr ⟨l, hl, by simp [hcl]⟩
  · intro c hc hcc
    rw [hd]
    simp only [List.mem_append]
    right
    simp [connCloseDiag, hc, hcc]

/-- Witness for C2: in a concrete registry whose record holds listeners 1 and 2
with listener 1 failing to close, the teardown diagnostics contain the
listener-1 close error. -/
theorem c2_teardown_order_witness :
    Diag.listenerCloseError 1 ∈ (closeByConnectionID envCloseErr trW "x").diags :=
  (c2_teardown_order envCloseErr trW "x" infoW (by decide)).2.2.2.1 1 (by decide) rfl

/-- Claim C3: closing an identifier that is not in the registry succeeds with
no diagnostics and leaves the registry unchanged; in particular a second close
of the same identifier is a no-op returning no error. -/
theorem c3_close_idempotent (env : Env) (tr : Tracker) (id : String) :
    (Tracker.get tr id = none →
      closeByConnectionID env tr id = { diags := [], tracker := tr }) ∧
    closeByConnectionID env (closeByConnectionID env tr id).tracker id =
      { diags := [], tracker := (closeByConnectionID env tr id).tracker } := by
  have haux : ∀ t : Tracker, Tracker.get t id = none →
      closeByConnectionID env t id = { diags := [], tracker := t } := by
    intro t ht
    unfold closeByConnectionID
    rw [ht]
  exact ⟨haux tr, haux _ (closeByConnectionID_get_none env tr id)⟩

/-- Witness for C3: closing an unknown identifier on the empty registry
returns no diagnostics and leaves the registry empty. -/
theorem c3_close_idempotent_witness :
    closeByConnectionID envBadKey Tracker.empty "zz" =
      { diags := [], tracker := Tracker.empty } :=
  (c3_close_idempotent envBadKey Tracker.empty "zz").1 rfl

/-- Claim C9: tearing down a registered record whose transport is nil closes
the record's listeners, skips the transport close (producing no
transport-close diagnostic), and removes the entry from the registry. -/
theorem c9_nil_transport_close (env : Env) (tr : Tracker) (id : String)
    (info : TunnelInfo) (h : Tracker.get tr id = some info)
    (hc : info.conn = none) :
    (closeByConnectionID env tr id).tracker = Tracker.remove tr id ∧
    Tracker.get (closeByConnectionID env tr id).tracker id = none ∧
    (closeByConnectionID env tr id).diags = listenerCloseDiags env info.listeners ∧
    Diag.connCloseError ∉ (closeByConnectionID env tr id).diags := by
  have hd : closeByConnectionID env tr id =
      { diags := listenerCloseDiags env info.listeners ++ connCloseDiag env info.conn
        tracker := Tracker.remove tr id } := by
    unfold closeByConnectionID
    rw [h]
  have hcd : connCloseDiag env info.conn = [] := by rw [hc]; simp [connCloseDiag]
  have hdiags : (closeByConnectionID env tr id).diags =
      listenerCloseDiags env info.listeners := by
    rw [hd]
    simp [hcd]
  refine ⟨by rw [hd], closeByConnectionID_get_none env tr id, hdiags, ?_⟩
  intro hmem
  rw [hdiags] at hmem
  rcases mem_listenerCloseDiags env _ _ hmem with ⟨l, hl⟩
  exact Diag.noConfusion hl

/-- Witness for C9: closing the concrete nil-transport record removes it from
the registry. -/
theorem c9_nil_transport_close_witness :
    Tracker.get (closeByConnectionID envCloseErr trN "y").tracker "y" = none :=
  (c9_nil_transport_close envCloseErr trN "y" infoN (by decide) rfl).2.1

/-- Claim C4: when constructing a forwarding listener fails, Open invokes the
teardown path for the identifier that was already registered — so the
identifier is absent from the registry when Open returns — and propagates the
failure to the caller. -/
theorem c4_listener_failure_teardown (env : Env) (tr : Tracker)
    (rand : Nat → Nat) (data : ConnectionModel)
    (h : Diag.portForwardingCreateError ∈ (openTunnel env tr rand data).diags) :
    (openTunnel env tr rand data).errored = true ∧
    Tracker.get (openTunnel env tr rand data).tracker
      (openTunnel env tr rand data).id = none := by
  rw [openTunnel_id]
  cases hm : env.marshalOk
  · simp [openTunnel, hm] at h
  · rcases hk : env.parsePrivateKey data.privateKey with _ | signer
    · simp [openTunnel, hm, hk] at h
    · rcases hdial : env.dial "tcp" (hostAddr data.host data.port)
          { user := data.user, signer := signer } with _ | conn
      · simp [openTunnel, hm, hk, hdial] at h
      · simp only [openTunnel, hm, hk, hdial] at h ⊢
        exact openLoop_pfdiag env _ conn data _ _ _ _ _ _ (Or.inl h)

/-- Witness for C4: with listener construction failing in a concrete
environment, Open leaves the identifier absent from the registry. -/
theorem c4_listener_failure_teardown_witness :
    Tracker.get (openTunnel envPfFail Tracker.empty rand0 dataG).tracker
      (openTunnel envPfFail Tracker.empty rand0 dataG).id = none :=
  (c4_listener_failure_teardown envPfFail Tracker.empty rand0 dataG (by decide)).2

/-- Counterexample to claim C1: when private-key parsing fails — a mid-setup
failure — Open returns with an error while the generated identifier is still
present in the registry, so Open is not all-or-nothing with respect to
registry visibility. -/
theorem c1_counterexample :
    (openTunnel envBadKey Tracker.empty rand0 data0).errored = true ∧
    (Tracker.get (openTunnel envBadKey Tracker.empty rand0 data0).tracker
      (openTunnel envBadKey Tracker.empty rand0 data0).id).isSome = true := by
  decide

/-- Claim C1 (amended): Open is all-or-nothing with respect to registry
visibility only for listener-construction failures: when `portforward.New`
fails or the listener address is not a TCP address, the identifier is absent
from the registry when Open returns; when Open succeeds, the registered
record's listener count equals the configured-forwarding count; but when
private-key parsing, transport establishment, or retry-delay parsing fails,
Open returns with the identifier still present in the registry. -/
theorem c1_amended (env : Env) (tr : Tracker) (rand : Nat → Nat)
    (data : ConnectionModel) :
    ((openTunnel env tr rand data).errored = false →
      (Tracker.get (openTunnel env tr rand data).tracker
        (openTunnel env tr rand data).id).isSome = true ∧
      ∀ info, Tracker.get (openTunnel env tr rand data).tracker
          (openTunnel env tr rand data).id = some info →
        info.listeners.length = data.forwardings.length) ∧
    ((Diag.portForwardingCreateError ∈ (openTunnel env tr rand data).diags ∨
        Diag.portForwardingAddrError ∈ (openTunnel env tr rand data).diags) →
      Tracker.get (openTunnel env tr rand data).tracker
        (openTunnel env tr rand data).id = none) ∧
    ((Diag.privateKeyError ∈ (openTunnel env tr rand data).diags ∨
        Diag.connectionError ∈ (openTunnel env tr rand data).diags ∨
        Diag.localPortForwardingRetryDelayError ∈
          (openTunnel env tr rand data).diags) →
      (Tracker.get (openTunnel env tr rand data).tracker
        (openTunnel env tr rand data).id).isSome = true) := by
  rw [openTunnel_id]
  cases hm : env.marshalOk
  · refine ⟨?_, ?_, ?_⟩ <;> simp [openTunnel, hm]
  · rcases hk : env.parsePrivateKey data.privateKey with _ | signer
    · refine ⟨?_, ?_, ?_⟩
      · simp [openTunnel, hm, hk]
      · simp [openTunnel, hm, hk]
      · intro _h
        simp only [openTunnel, hm, hk]
        rw [Tracker.get_add]
        rfl
    · rcases hdial : env.dial "tcp" (hostAddr data.host data.port)
          { user := data.user, signer := signer } with _ | conn
      · refine ⟨?_, ?_, ?_⟩
        · simp [openTunnel, hm, hk, hdial]
        · simp [openTunnel, hm, hk, hdial]
        · intro _h
          simp only [openTunnel, hm, hk, hdial]
          rw [Tracker.get_add]
          rfl
      · simp only [openTunnel, hm, hk, hdial]
        refine ⟨?_, ?_, ?_⟩
        · intro hok
          obtain ⟨ls, ds, h1, h2, h3, h4, h5⟩ :=
            openLoop_success env _ conn data _ _ _ _ _ _ (Tracker.get_add _ _ _) hok
          refine ⟨by rw [h1]; rfl, ?_⟩
          intro info hinfo
          rw [h1] at hinfo
          simp only [Option.some.injEq] at hinfo
          subst hinfo
          simpa using h3
        · intro h
          exact (openLoop_pfdiag env _ conn data _ _ _ _ _ _ h).2
        · intro h
          rcases h with h | h | h
          · exact absurd h (openLoop_no_setup_diags env _ conn data _ _ _ _ _ _).1
          · exact absurd h (openLoop_no_setup_diags env _ conn data _ _ _ _ _ _).2
          · refine (openLoop_retrydiag env _ conn data _ _ _ _ _ _ ?_ h).2
            rw [Tracker.get_add]
            rfl

/-- Witness for C1 (amended), third conjunct: the concrete bad-key run leaves
the identifier registered. -/
theorem c1_amended_witness :
    (Tracker.get (openTunnel envBadKey Tracker.empty rand0 data0).tracker
      (openTunnel envBadKey Tracker.empty rand0 data0).id).isSome = true :=
  (c1_amended envBadKey Tracker.empty rand0 data0).2.2 (Or.inl (by decide))

/-- Counterexample to claim C5: after an Open whose private-key parsing failed,
the registry contains the generated identifier with a nil transport, so not
every registered identifier denotes an open transport. -/
theorem c5_counterexample :
    Tracker.get (openTunnel envBadKey Tracker.empty rand0 data0).tracker
      (openTunnel envBadKey Tracker.empty rand0 data0).id =
      some { conn := none, listeners := [] } := by
  decide

/-- Claim C5 (amended): after an Open that returns without error, the
identifier it generated is present in the registry and its record's transport
handle is non-nil; however, an Open that fails during private-key parsing,
transport establishment, or retry-delay parsing leaves a registered record
whose transport may be nil. -/
theorem c5_amended (env : Env) (tr : Tracker) (rand : Nat → Nat)
    (data : ConnectionModel)
    (hok : (openTunnel env tr rand data).errored = false) :
    (Tracker.get (openTunnel env tr rand data).tracker
      (openTunnel env tr rand data).id).isSome = true ∧
    ∀ info, Tracker.get (openTunnel env tr rand data).tracker
        (openTunnel env tr rand data).id = some info →
      info.conn.isSome = true := by
  rw [openTunnel_id]
  cases hm : env.marshalOk
  · simp [openTunnel, hm] at hok
  · rcases hk : env.parsePrivateKey data.privateKey with _ | signer
    · simp [openTunnel, hm, hk] at hok
    · rcases hdial : env.dial "tcp" (hostAddr data.host data.port)
          { user := data.user, signer := signer } with _ | conn
      · simp [openTunnel, hm, hk, hdial] at hok
      · simp only [openTunnel, hm, hk, hdial] at hok ⊢
        obtain ⟨ls, ds, h1, h2, h3, h4, h5⟩ :=
          openLoop_success env _ conn data _ _ _ _ _ _ (Tracker.get_add _ _ _) hok
        refine ⟨by rw [h1]; rfl, ?_⟩
        intro info hinfo
        rw [h1] at hinfo
        simp only [Option.some.injEq] at hinfo
        subst hinfo
        rfl

/-- Witness for C5 (amended): the concrete successful run registers its
identifier. -/
theorem c5_amended_witness :
    (Tracker.get (openTunnel envGood Tracker.empty rand0 dataG).tracker
      (openTunnel envGood Tracker.empty rand0 dataG).id).isSome = true :=
  (c5_amended envGood Tracker.empty rand0 dataG (by decide)).1

/-- Claim C6: for every record reachable through the registry (any state
produced from the empty registry by Open and teardown operations), a
non-empty listener set implies a non-nil transport handle. -/
theorem c6_record_invariant (tr : Tracker) (h1 : Reach tr) (id : String)
    (info : TunnelInfo) (h2 : Tracker.get tr id = some info)
    (h3 : info.listeners ≠ []) : info.conn.isSome = true :=
  reach_trackerOK tr h1 (id, info) (Tracker.mem_of_get tr id info h2) h3

/-- Witness for C6: the record registered by the concrete successful run has a
listener and a non-nil transport. -/
theorem c6_record_invariant_witness : infoG.conn.isSome = true :=
  c6_record_invariant (openTunnel envGood Tracker.empty rand0 dataG).tracker
    (Reach.openT envGood Tracker.empty rand0 dataG Reach.empty)
    (openTunnel envGood Tracker.empty rand0 dataG).id infoG (by decide) (by decide)

/-- Claim C7: for every successful Open, the result reported to the caller
contains, for each forwarding rule in order, the concrete local port to which
that rule's listener is bound — stated for environments whose listener
addresses carry genuine TCP ports (below 65536, so the int32 conversion of
line 252 is the identity). -/
theorem c7_reported_ports (env : Env) (tr : Tracker) (rand : Nat → Nat)
    (data : ConnectionModel)
    (hports : ∀ l a, env.listenerTCPAddr l = some a → 0 ≤ a.port ∧ a.port < 65536)
    (hok : (openTunnel env tr rand data).errored = false) :
    ((openTunnel env tr rand data).result).isSome = true ∧
    ∀ out info, (openTunnel env tr rand data).result = some out →
      Tracker.get (openTunnel env tr rand data).tracker
        (openTunnel env tr rand data).id = some info →
      out.forwardings.length = data.forwardings.length ∧
      info.listeners.length = data.forwardings.length ∧
      ∀ i : Nat, (out.forwardings[i]?.bind Forwarding.localPort) =
        (info.listeners[i]?.bind env.listenerTCPAddr).map TCPAddr.port := by
  rw [openTunnel_id]
  cases hm : env.marshalOk
  · simp [openTunnel, hm] at hok
  · rcases hk : env.parsePrivateKey data.privateKey with _ | signer
    · simp [openTunnel, hm, hk] at hok
    · rcases hdial : env.dial "tcp" (hostAddr data.host data.port)
          { user := data.user, signer := signer } with _ | conn
      · simp [openTunnel, hm, hk, hdial] at hok
      · simp only [openTunnel, hm, hk, hdial] at hok ⊢
        obtain ⟨ls, ds, h1, h2, h3, h4, h5⟩ :=
          openLoop_success env _ conn data _ _ _ _ _ _ (Tracker.get_add _ _ _) hok
        refine ⟨by rw [h2]; rfl, ?_⟩
        intro out info hout hinfo
        rw [h2] at hout
        rw [h1] at hinfo
        simp only [Option.some.injEq] at hout hinfo
        subst hout
        subst hinfo
        refine ⟨by simpa using h4, by simpa using h3, ?_⟩
        intro i
        simp only [List.nil_append]
        by_cases hi : i < data.forwardings.length
        · obtain ⟨l, a, hl, ha, hd⟩ := h5 i (data.forwardings[i])
            (List.getElem?_eq_getElem hi)
          rw [hd, hl]
          have hr := hports l a ha
          simp [ha, toInt32_eq_self a.port hr.1 hr.2]
        · have hds : ds[i]? = none := List.getElem?_eq_none (by omega)
          have hls : ls[i]? = none := List.getElem?_eq_none (by omega)
          rw [hds, hls]
          rfl

/-- Witness for C7: in the concrete successful run, the reported local port of
the first forwarding equals the bound TCP port of the first listener. -/
theorem c7_reported_ports_witness :
    (outG.forwardings[0]?.bind Forwarding.localPort) =
      ((infoG.listeners[0]?.bind envGood.listenerTCPAddr).map TCPAddr.port) :=
  ((c7_reported_ports envGood Tracker.empty rand0 dataG
      (by
        intro l a h
        simp only [envGood, Option.some.injEq] at h
        subst h
        decide)
      (by decide)).2 outG infoG (by decide) (by decide)).2.2 0

theorem letters_alnum : ∀ k, k < 52 → ((letters.getD k 'a').isAlphanum = true) := by
  decide

/-- Claim C8: every identifier generated by Open (`randSeq` applied to 8) is a
fixed-length 8-character token whose characters are all drawn from the
alphanumeric alphabet (the code draws them from the ASCII-letter alphabet, a
subset of the alphanumeric characters), for every random source. -/
theorem c8_randseq_shape (rand : Nat → Nat) :
    (randSeq rand 8).length = 8 ∧
    ((randSeq rand 8).data.all (fun c => c.isAlphanum)) = true := by
  constructor
  · simp [randSeq, String.length]
  · rw [List.all_eq_true]
    intro c hc
    simp only [randSeq] at hc
    obtain ⟨i, _, rfl⟩ := List.mem_map.mp hc
    have h52 : letters.length = 52 := by decide
    have hlt : rand i % letters.length < 52 := by
      rw [h52]
      exact Nat.mod_lt _ (by decide)
    exact letters_alnum _ hlt

/-- Claim C10: the dial address for the SSH endpoint and the remote address of
every forwarding config are exactly host ++ ":" ++ decimal(port), with no
bracketing of the host; in particular an IPv6 literal host yields an
unbracketed address, as the concrete third conjunct shows. -/
theorem c10_host_addr (env : Env) (tr : Tracker) (rand : Nat → Nat)
    (data : ConnectionModel) :
    (∀ a, (openTunnel env tr rand data).dialAddr = some a →
      a = data.host ++ ":" ++ toString data.port) ∧
    (∀ (i : Nat) (c : PfConfig),
      (openTunnel env tr rand data).pfConfs[i]? = some c →
      ∃ f0, data.forwardings[i]? = some f0 ∧
        c.remoteAddr = f0.remoteHost ++ ":" ++ toString f0.remotePort) ∧
    hostAddr "::1" 22 = "::1:22" := by
  refine ⟨?_, ?_, by decide⟩
  · intro a ha
    cases hm : env.marshalOk
    · simp [openTunnel, hm] at ha
    · rcases hk : env.parsePrivateKey data.privateKey with _ | signer
      · simp [openTunnel, hm, hk] at ha
      · rcases hdial : env.dial "tcp" (hostAddr data.host data.port)
            { user := data.user, signer := signer } with _ | conn
        · simp only [openTunnel, hm, hk, hdial, Option.some.injEq] at ha
          exact ha.symm
        · simp only [openTunnel, hm, hk, hdial] at ha
          rw [openLoop_dialAddr] at ha
          simp only [Option.some.injEq] at ha
          exact ha.symm
  · intro i c hc
    cases hm : env.marshalOk
    · simp [openTunnel, hm] at hc
    · rcases hk : env.parsePrivateKey data.privateKey with _ | signer
      · simp [openTunnel, hm, hk] at hc
      · rcases hdial : env.dial "tcp" (hostAddr data.host data.port)
            { user := data.user, signer := signer } with _ | conn
        · simp [openTunnel, hm, hk, hdial] at hc
        · simp only [openTunnel, hm, hk, hdial] at hc
          obtain ⟨cs, hc1, hc2⟩ :=
            openLoop_confs env _ conn data data.forwardings _ _ [] [] _
          rw [hc1] at hc
          simp only [List.nil_append] at hc
          obtain ⟨f0, hf0, hra⟩ := hc2 i c hc
          exact ⟨f0, hf0, hra⟩

/-- Witness for C10: the concrete successful run dials exactly host:port. -/
theorem c10_host_addr_witness :
    hostAddr "h" 22 = "h" ++ ":" ++ toString (22 : Int) :=
  (c10_host_addr envGood Tracker.empty rand0 dataG).1 (hostAddr "h" 22) (by decide)
